import Mathlib

/-!
Shallow embedding of the nymea / maveo-box Home Assistant integration
(`maveo_box.py`, `thing.py`).  JSON values are modelled by `JVal`, wire
frames (already parsed from newline-delimited JSON) by `Frame`, and the
socket's behaviour by a list of `RecvEvent`s: each event is either a full
parsed frame or a zero-length `recv` chunk (`closed`).  Python exceptions
are modelled by the `Err` type; a read on an exhausted event stream, which
in Python would block forever, is modelled by `Err.blocked`.
-/

namespace Nymea

/-- JSON values as far as the client inspects them. -/
inductive JVal where
  | str (s : String)
  | bool (b : Bool)
  | int (n : Int)
  | null
deriving DecidableEq, Repr

/-- A JSON object, as an association list (keys are unique on the wire). -/
abbrev Params := List (String × JVal)

/-- `dict.get(k)` / `dict[k]`-style lookup on a JSON object. -/
def pget (p : Params) (k : String) : Option JVal :=
  match p with
  | [] => none
  | (k2, v) :: rest => if k2 = k then some v else pget rest k

/-- Python truthiness of a JSON value (used for the Hello flags). -/
def truthy : JVal → Bool
  | .str s => if s = "" then false else true
  | .bool b => b
  | .int n => if n = 0 then false else true
  | .null => false

/-- A parsed frame (a JSON object): the fields the client reads, each
optional because Python accesses them dynamically by key. -/
structure Frame where
  notification : Option String := none
  id : Option Int := none
  status : Option String := none
  error : Option JVal := none
  params : Option Params := none
deriving DecidableEq, Repr

/-- Python exceptions raised by the client code, plus `blocked` for a read
on an exhausted event stream (in Python the call would block forever). -/
inductive Err where
  | runtimeError (msg : String)
  | keyError (key : String)
  | typeError (msg : String)
  | notImplementedError (msg : String)
  | osError (msg : String)
  | connectionError (msg : String)
  | blocked
deriving DecidableEq, Repr

/-- One observable outcome of reading a frame off the socket: either a
complete parsed frame, or a zero-length chunk (peer closed the stream). -/
inductive RecvEvent where
  | closed
  | frame (f : Frame)
deriving DecidableEq, Repr

/-- Whether a closing brace (`\x7d`) immediately followed by a newline
occurs in the character list. -/
def containsDelim : List Char → Bool
  | [] => false
  | c :: rest =>
    match rest with
    | [] => false
    | d :: _ => if c = '\x7d' ∧ d = '\n' then true else containsDelim rest

/-- `"}\n" in data`: the frame-delimiter test from the inner recv loops
(`maveo_box.py` lines 179 and 244). -/
def hasDelim (data : String) : Bool := containsDelim data.toList

/-- The inner chunk-accumulation loop shared by `send_command` and
`_pushbuttonAuthentication`: append `recv` chunks to `data` until the
delimiter appears; a zero-length chunk raises
`RuntimeError("socket connection broken")`. -/
def recvLoop (chunks : List String) (data : String) : Except Err String :=
  if hasDelim data then .ok data
  else
    match chunks with
    | [] => .error .blocked
    | c :: rest =>
      if c = "" then .error (.runtimeError "socket connection broken")
      else recvLoop rest (data ++ c)

/-- The mutable fields of `MaveoBox` that the command channel and the
authentication state machine touch. -/
structure BoxState where
  token : Option JVal := none
  authenticationRequired : Bool := true
  initialSetupRequired : Bool := false
  pushButtonAuthAvailable : Bool := false
  commandId : Int := 0
deriving DecidableEq, Repr

/-- A JSON-RPC request as `send_command` builds it: `id` and `method`
always; `token` only when authentication is active and a token is known;
`params` only when non-empty. -/
structure Request where
  id : Int
  method : String
  token : Option JVal := none
  params : Option Params := none
deriving DecidableEq, Repr

/-- The request object built at `maveo_box.py` lines 225-233. -/
def mkRequest (st : BoxState) (method : String) (params : Option Params) : Request :=
  { id := st.commandId
    method := method
    token := if st.authenticationRequired && st.token.isSome then st.token else none
    params :=
      match params with
      | some p => if p.length > 0 then some p else none
      | none => none }

/-- The read loop of `send_command` (lines 240-258): read frames, skip any
frame carrying a `notification` key, stop at a frame whose `id` equals the
command id.  A non-notification frame without an `id` key raises
`KeyError`. -/
def readLoop (cid : Int) : List RecvEvent → Except Err (Frame × List RecvEvent)
  | [] => .error .blocked
  | .closed :: _ => .error (.runtimeError "socket connection broken")
  | .frame f :: rest =>
    if f.notification.isSome then readLoop cid rest
    else
      match f.id with
      | none => .error (.keyError "id")
      | some i => if i = cid then .ok (f, rest) else readLoop cid rest

/-- The outcome of `send_command` after the matching response arrived
(lines 260-265): a missing `status` key raises `KeyError`; a non-success
status logs the `error` field and returns `None`; otherwise the matched
response is returned.  The second component is the unread remainder of the
event stream. -/
def commandOutcome (cid : Int) (events : List RecvEvent) :
    Except Err (Option Frame) × List RecvEvent :=
  match readLoop cid events with
  | .error e => (.error e, [])
  | .ok (f, rest) =>
    match f.status with
    | none => (.error (.keyError "status"), rest)
    | some s => if s = "success" then (.ok (some f), rest) else (.ok none, rest)

/-- Everything observable about one `send_command` call: its result (or
the exception it raised), the mutated box state, the requests written to
the socket, and the unread remainder of the event stream. -/
structure CmdOut where
  outcome : Except Err (Option Frame)
  state : BoxState
  sent : List Request
  rest : List RecvEvent
deriving Repr

/-- `MaveoBox.send_command` (lines 220-265).  The command id is captured
and incremented before the frame is written, so the increment persists
even when the read later raises. -/
def send_command (st : BoxState) (method : String) (params : Option Params)
    (events : List RecvEvent) : CmdOut :=
  let req := mkRequest st method params
  let st1 := { st with commandId := st.commandId + 1 }
  let r := commandOutcome st.commandId events
  { outcome := r.1, state := st1, sent := [req], rest := r.2 }

/-- The first wait loop of `_pushbuttonAuthentication` (lines 176-186):
read frames until one whose `id` equals the command id.  Unlike
`send_command`, this loop does not skip notifications: any frame without
an `id` key raises `KeyError`. -/
def ackLoop (cid : Int) : List RecvEvent → Except Err (List RecvEvent)
  | [] => .error .blocked
  | .closed :: _ => .error (.runtimeError "socket connection broken")
  | .frame f :: rest =>
    match f.id with
    | none => .error (.keyError "id")
    | some i => if i = cid then .ok rest else ackLoop cid rest

/-- The push-button wait loop of `_pushbuttonAuthentication` (lines
195-211): read frames forever; on a notification named
`JSONRPC.PushButtonAuthFinished` whose `params.success` is the boolean
`True`, return `params.token`; every other frame (including a finished
notification with `success` false) is skipped and the loop continues. -/
def waitPushButton : List RecvEvent → Except Err (JVal × List RecvEvent)
  | [] => .error .blocked
  | .closed :: _ => .error (.runtimeError "socket connection broken")
  | .frame f :: rest =>
    if f.notification = some "JSONRPC.PushButtonAuthFinished" then
      match f.params with
      | none => .error (.keyError "params")
      | some p =>
        match pget p "success" with
        | none => .error (.keyError "success")
        | some v =>
          if v = .bool true then
            match pget p "token" with
            | none => .error (.keyError "token")
            | some t => .ok (t, rest)
          else waitPushButton rest
    else waitPushButton rest

/-- Observable result of `_pushbuttonAuthentication`. -/
structure AuthOut where
  outcome : Except Err JVal
  state : BoxState
  sent : List Request
deriving Repr

/-- `MaveoBox._pushbuttonAuthentication` (lines 158-211).  If a token is
already known it is returned at once.  Otherwise a
`JSONRPC.RequestPushButtonAuth` request (current command id, no token,
`deviceName` param) is written, the matching response is awaited, the
command id is incremented (only after the ack arrived), and then the
push-button wait loop runs. -/
def pushbuttonAuthentication (st : BoxState) (events : List RecvEvent) : AuthOut :=
  match st.token with
  | some t => { outcome := .ok t, state := st, sent := [] }
  | none =>
    let req : Request :=
      { id := st.commandId
        method := "JSONRPC.RequestPushButtonAuth"
        token := none
        params := some [("deviceName", .str "home assistant")] }
    match ackLoop st.commandId events with
    | .error e => { outcome := .error e, state := st, sent := [req] }
    | .ok rest1 =>
      let st1 := { st with commandId := st.commandId + 1 }
      match waitPushButton rest1 with
      | .error e => { outcome := .error e, state := st1, sent := [req] }
      | .ok (t, _) => { outcome := .ok t, state := st1, sent := [req] }

/-- `ssl` certificate-verification modes used by the client. -/
inductive VerifyMode where
  | certNone
  | certRequired
deriving DecidableEq, Repr

/-- The two SSL-context fields the client configures. -/
structure SSLContext where
  checkHostname : Bool
  verifyMode : VerifyMode
deriving DecidableEq, Repr

/-- `ssl.create_default_context()`: hostname checking on, certificates
verified. -/
def ssl_create_default_context : SSLContext :=
  { checkHostname := true, verifyMode := .certRequired }

/-- `MaveoBox._create_ssl_context` (lines 87-93): start from the default
context, then disable hostname checking and certificate verification for
self-signed hub certificates. -/
def create_ssl_context : SSLContext :=
  let context := ssl_create_default_context
  { context with checkHostname := false, verifyMode := .certNone }

/-- The network environment `init_connection` runs against: the outcome
of the plain TCP connect, the event stream readable on the plain socket,
the outcomes of the fallback TLS connect and TLS wrap, and the event
stream readable on the TLS socket. -/
structure NetEnv where
  plainConnect : Except Err Unit
  plainEvents : List RecvEvent
  tlsConnect : Except Err Unit
  tlsWrap : Except Err Unit
  tlsEvents : List RecvEvent
deriving Repr

/-- Result and state of one handshake-processing phase. -/
structure PhaseOut where
  outcome : Except Err (Option JVal)
  state : BoxState
  sent : List Request
deriving Repr

/-- `init_connection` lines 123-156, after `handshake_message` is in hand:
read the three flags out of `params` (mutating the corresponding fields
one by one, so earlier assignments persist when a later key is missing),
then: no authentication required ⇒ return `None`; initial setup required
⇒ raise `NotImplementedError`; no push button ⇒ raise
`NotImplementedError`; otherwise run push-button authentication when no
token is known, and return the token. -/
def afterHandshake (st0 : BoxState) (f : Frame) (rest : List RecvEvent) : PhaseOut :=
  match f.params with
  | none => { outcome := .error (.keyError "params"), state := st0, sent := [] }
  | some hd =>
    match pget hd "initialSetupRequired" with
    | none => { outcome := .error (.keyError "initialSetupRequired"), state := st0, sent := [] }
    | some v1 =>
      let st1 := { st0 with initialSetupRequired := truthy v1 }
      match pget hd "authenticationRequired" with
      | none => { outcome := .error (.keyError "authenticationRequired"), state := st1, sent := [] }
      | some v2 =>
        let st2 := { st1 with authenticationRequired := truthy v2 }
        match pget hd "pushButtonAuthAvailable" with
        | none => { outcome := .error (.keyError "pushButtonAuthAvailable"), state := st2, sent := [] }
        | some v3 =>
          let st3 := { st2 with pushButtonAuthAvailable := truthy v3 }
          if st3.authenticationRequired = false then
            { outcome := .ok none, state := st3, sent := [] }
          else if st3.initialSetupRequired = true then
            { outcome := .error (.notImplementedError
                "An uninitialized maveo box is currently not supported")
              state := st3, sent := [] }
          else if st3.pushButtonAuthAvailable = false then
            { outcome := .error (.notImplementedError
                "A maveo box without push button is currently not supported")
              state := st3, sent := [] }
          else if st3.authenticationRequired = true ∧ st3.token = none then
            let a := pushbuttonAuthentication st3 rest
            match a.outcome with
            | .error e => { outcome := .error e, state := a.state, sent := a.sent }
            | .ok t =>
              { outcome := .ok (some t)
                state := { a.state with token := some t }
                sent := a.sent }
          else
            { outcome := .ok st3.token, state := st3, sent := [] }

/-- Line 123, `handshake_message["params"]`, when `send_command` returned
`None` (non-success Hello): subscripting `None` raises `TypeError`. -/
def helloResult (st : BoxState) (r : Option Frame) (rest : List RecvEvent) : PhaseOut :=
  match r with
  | none => { outcome := .error (.typeError "NoneType object is not subscriptable")
              state := st, sent := [] }
  | some f => afterHandshake st f rest

/-- Observable result of `init_connection`: its outcome, the final box
state, the requests written on the plain socket and on the TLS socket,
and whether a TLS connect was ever attempted. -/
structure InitOut where
  outcome : Except Err (Option JVal)
  state : BoxState
  plainSent : List Request
  tlsSent : List Request
  tlsConnectAttempted : Bool
deriving Repr

/-- `MaveoBox.init_connection` (lines 95-156).  The plain TCP connect is
outside the `try`, so its failure propagates without any TLS attempt.
Only a failure of the first `JSONRPC.Hello` `send_command` triggers the
single TLS fallback (fresh socket, unverified context, wrap, Hello
again); a failure anywhere in the fallback propagates unchanged.  The
handshake flags are processed identically on whichever path produced
`handshake_message`. -/
def init_connection (st0 : BoxState) (env : NetEnv) : InitOut :=
  match env.plainConnect with
  | .error e =>
    { outcome := .error e, state := st0, plainSent := [], tlsSent := []
      tlsConnectAttempted := false }
  | .ok _ =>
    let c1 := send_command st0 "JSONRPC.Hello" (some ([] : Params)) env.plainEvents
    match c1.outcome with
    | .ok r =>
      let ph := helloResult c1.state r c1.rest
      { outcome := ph.outcome, state := ph.state
        plainSent := c1.sent ++ ph.sent, tlsSent := []
        tlsConnectAttempted := false }
    | .error _ =>
      let _ctx := create_ssl_context
      match env.tlsConnect with
      | .error e =>
        { outcome := .error e, state := c1.state, plainSent := c1.sent
          tlsSent := [], tlsConnectAttempted := true }
      | .ok _ =>
        match env.tlsWrap with
        | .error e =>
          { outcome := .error e, state := c1.state, plainSent := c1.sent
            tlsSent := [], tlsConnectAttempted := true }
        | .ok _ =>
          let c2 := send_command c1.state "JSONRPC.Hello" (some ([] : Params)) env.tlsEvents
          match c2.outcome with
          | .error e =>
            { outcome := .error e, state := c2.state, plainSent := c1.sent
              tlsSent := c2.sent, tlsConnectAttempted := true }
          | .ok r =>
            let ph := helloResult c2.state r c2.rest
            { outcome := ph.outcome, state := ph.state, plainSent := c1.sent
              tlsSent := c2.sent ++ ph.sent, tlsConnectAttempted := true }

/-- A sequence of sequential `send_command` calls on one box instance:
the ids attached to the requests written to the socket, in order. -/
def runIds (st : BoxState) : List (String × Option Params × List RecvEvent) → List Int
  | [] => []
  | (m, p, ev) :: calls =>
    let c := send_command st m p ev
    c.sent.map Request.id ++ runIds c.state calls

/-- A sequence of sequential `send_command` calls on one box instance:
all requests written to the socket, in order. -/
def runRequests (st : BoxState) : List (String × Option Params × List RecvEvent) → List Request
  | [] => []
  | (m, p, ev) :: calls =>
    let c := send_command st m p ev
    c.sent ++ runRequests c.state calls

/-- Notification handlers, identified abstractly. -/
abbrev Handler := Nat

/-- `MaveoBox._notification_handlers`: a dict from notification name to
the list of registered handlers. -/
abbrev Registry := List (String × List Handler)

/-- Dict lookup on the handler registry. -/
def regLookup (reg : Registry) (name : String) : Option (List Handler) :=
  match reg with
  | [] => none
  | (k, hs) :: rest => if k = name then some hs else regLookup rest name

/-- Dict assignment `reg[name] = hs`. -/
def regSet (reg : Registry) (name : String) (hs : List Handler) : Registry :=
  match reg with
  | [] => [(name, hs)]
  | (k, old) :: rest =>
    if k = name then (name, hs) :: rest else (k, old) :: regSet rest name hs

/-- `MaveoBox.register_notification_handler` (lines 406-413): create the
entry if absent, then append the handler. -/
def register_notification_handler (reg : Registry) (name : String) (h : Handler) : Registry :=
  let reg1 := if (regLookup reg name).isSome then reg else regSet reg name []
  regSet reg1 name ((regLookup reg1 name).getD [] ++ [h])

/-- Outcome of scheduling one handler invocation
(`call_soon_threadsafe`): either it was scheduled, or it raised (which
the dispatch loop catches and logs). -/
inductive SchedOutcome where
  | ok
  | raised (msg : String)
deriving DecidableEq, Repr

/-- One attempted handler invocation recorded by the dispatch loop: the
handler, the params it was given, and whether scheduling it raised. -/
structure Invocation where
  handler : Handler
  params : Params
  result : SchedOutcome
deriving DecidableEq, Repr

/-- Notification dispatch inside `_ws_listen_loop` (lines 356-384): a
message without a `notification` key is logged and ignored; otherwise the
handlers registered under the notification's name are each invoked once,
in order, with `message.get("params", {})`; an exception raised while
scheduling one handler is caught and logged and the iteration continues
with the remaining handlers.  `sched` gives each scheduling attempt's
outcome. -/
def dispatchMessage (reg : Registry) (sched : Handler → Params → SchedOutcome)
    (msg : Frame) : List Invocation :=
  match msg.notification with
  | none => []
  | some name =>
    let params := msg.params.getD []
    match regLookup reg name with
    | none => []
    | some hs => hs.map (fun h => { handler := h, params := params, result := sched h params })

/-- The message-processing part of `_ws_listen_loop`: every received
message is dispatched and the loop continues regardless of per-handler
scheduling failures. -/
def wsProcessMessages (reg : Registry) (sched : Handler → Params → SchedOutcome) :
    List Frame → List Invocation
  | [] => []
  | m :: rest => dispatchMessage reg sched m ++ wsProcessMessages reg sched rest

/-- The per-`Thing` state touched by `Thing._handle_state_changed`: the
thing's id and its state cache (`stateTypeId` value → state value). -/
structure ThingState where
  id : String
  stateCache : List (JVal × JVal)
deriving DecidableEq, Repr

/-- Dict assignment `cache[k] = v`. -/
def cacheSet (c : List (JVal × JVal)) (k v : JVal) : List (JVal × JVal) :=
  match c with
  | [] => [(k, v)]
  | (k2, v2) :: rest =>
    if k2 = k then (k, v) :: rest else (k2, v2) :: cacheSet rest k v

/-- Dict lookup `cache.get(k)`. -/
def cacheGet (c : List (JVal × JVal)) (k : JVal) : Option JVal :=
  match c with
  | [] => none
  | (k2, v) :: rest => if k2 = k then some v else cacheGet rest k

/-- `Thing._handle_state_changed` (`thing.py` lines 50-75).  If
`params.get("thingId")` differs from this thing's id (including when the
key is absent or not a string), return immediately: no cache change and no
callback scheduling.  Otherwise cache the value when `stateTypeId` is
truthy and `value` is present and not `null` (JSON `null` reads back as
Python `None`), and then attempt to schedule the thing's callbacks — the
boolean of the result records that this scheduling attempt happened. -/
def handle_state_changed (t : ThingState) (params : Params) : ThingState × Bool :=
  if pget params "thingId" = some (JVal.str t.id) then
    let cache2 :=
      match pget params "stateTypeId", pget params "value" with
      | some k, some v =>
        if truthy k = true ∧ v ≠ JVal.null then cacheSet t.stateCache k v
        else t.stateCache
      | _, _ => t.stateCache
    ({ t with stateCache := cache2 }, true)
  else (t, false)

/-- `Thing.get_state_value` (`thing.py` lines 77-79). -/
def get_state_value (t : ThingState) (state_type_id : String) : Option JVal :=
  cacheGet t.stateCache (.str state_type_id)

/-- An event that the `send_command` read loop skips: a frame carrying a
`notification` key. -/
def isNotifFrame : RecvEvent → Bool
  | .closed => false
  | .frame g => g.notification.isSome

/-- Every event in the list is a notification frame. -/
def notifOnly (l : List RecvEvent) : Bool := l.all isNotifFrame

/-- An event that the push-button wait loop skips without terminating or
raising: any frame that is not a `PushButtonAuthFinished` notification,
or one whose `params.success` exists but is not the boolean `True`. -/
def nonFinishEvent : RecvEvent → Bool
  | .closed => false
  | .frame g =>
    if g.notification = some "JSONRPC.PushButtonAuthFinished" then
      match g.params with
      | none => false
      | some p =>
        match pget p "success" with
        | none => false
        | some v => if v = JVal.bool true then false else true
    else true

/-- Every event in the list is skipped by the push-button wait loop. -/
def okToSkip (l : List RecvEvent) : Bool := l.all nonFinishEvent

/-- Whether a request is a `JSONRPC.Hello` handshake. -/
def isHello (r : Request) : Bool := decide (r.method = "JSONRPC.Hello")

/-- How many `JSONRPC.Hello` requests a list of sent requests contains. -/
def helloCount (l : List Request) : Nat := l.countP isHello

/-- Whether a `send_command`/`init_connection` outcome is a raised
`NotImplementedError`. -/
def raisedNotImplemented : Except Err (Option JVal) → Bool
  | .error (.notImplementedError _) => true
  | _ => false

/-- Whether an `init_connection` outcome is a raised `ConnectionError`. -/
def raisedConnectionError : Except Err (Option JVal) → Bool
  | .error (.connectionError _) => true
  | _ => false

section Lemmas

@[simp]
theorem send_command_outcome (st : BoxState) (m : String) (p : Option Params)
    (ev : List RecvEvent) :
    (send_command st m p ev).outcome = (commandOutcome st.commandId ev).1 := rfl

@[simp]
theorem send_command_sent (st : BoxState) (m : String) (p : Option Params)
    (ev : List RecvEvent) :
    (send_command st m p ev).sent = [mkRequest st m p] := rfl

@[simp]
theorem send_command_state (st : BoxState) (m : String) (p : Option Params)
    (ev : List RecvEvent) :
    (send_command st m p ev).state = { st with commandId := st.commandId + 1 } := rfl

@[simp]
theorem send_command_rest (st : BoxState) (m : String) (p : Option Params)
    (ev : List RecvEvent) :
    (send_command st m p ev).rest = (commandOutcome st.commandId ev).2 := rfl

theorem readLoop_skip (cid : Int) (g : Frame) (rest : List RecvEvent)
    (hg : g.notification.isSome = true) :
    readLoop cid (.frame g :: rest) = readLoop cid rest := by
  simp [readLoop, hg]

theorem readLoop_append (cid : Int) (pre tail : List RecvEvent)
    (h : notifOnly pre = true) :
    readLoop cid (pre ++ tail) = readLoop cid tail := by
  induction pre with
  | nil => rfl
  | cons e pre ih =>
    rw [List.cons_append]
    cases e with
    | closed => simp [notifOnly, isNotifFrame] at h
    | frame g =>
      simp only [notifOnly, List.all_cons, Bool.and_eq_true] at h
      rw [readLoop_skip cid g _ h.1]
      exact ih h.2

theorem readLoop_match (cid : Int) (f : Frame) (rest : List RecvEvent)
    (hn : f.notification = none) (hid : f.id = some cid) :
    readLoop cid (.frame f :: rest) = .ok (f, rest) := by
  simp [readLoop, hn, hid]

end Lemmas

/-- C1: a `send_command` call assigns the current command id to its
request, then its read loop discards every frame carrying a
`notification` key and keeps reading until a non-notification frame whose
`id` equals that command id arrives; the frame returned (on success
status) is exactly that matching frame. -/
theorem send_command_skips_notifications_returns_matching_response
    (st : BoxState) (m : String) (p : Option Params)
    (pre post rest : List RecvEvent) (f g : Frame) (cid : Int) :
    (g.notification.isSome = true →
      readLoop cid (.frame g :: rest) = readLoop cid rest)
    ∧ (notifOnly pre = true → f.notification = none → f.id = some st.commandId →
        f.status = some "success" →
        (send_command st m p (pre ++ .frame f :: post)).outcome = .ok (some f)) := by
  constructor
  · exact readLoop_skip cid g rest
  · intro hpre hn hid hs
    rw [send_command_outcome]
    unfold commandOutcome
    rw [readLoop_append _ _ _ hpre, readLoop_match _ _ _ hn hid]
    simp [hs]

/-- Witness for C1: two notifications precede the matching response; the
matching response is returned. -/
theorem send_command_skips_notifications_returns_matching_response_witness :
    (send_command {} "Integrations.GetThings" none
        [RecvEvent.frame { notification := some "Integrations.StateChanged" },
         RecvEvent.frame { notification := some "JSONRPC.PushButtonAuthFinished" },
         RecvEvent.frame { id := some 0, status := some "success" }]).outcome
      = .ok (some { id := some 0, status := some "success" }) := by
  have h := (send_command_skips_notifications_returns_matching_response
      {} "Integrations.GetThings" none
      [RecvEvent.frame { notification := some "Integrations.StateChanged" },
       RecvEvent.frame { notification := some "JSONRPC.PushButtonAuthFinished" }]
      [] [] { id := some 0, status := some "success" } {} 0).2
      (by decide) rfl rfl rfl
  simpa using h

/-- C2: over any sequence of sequential `send_command` calls on one box
instance, the ids attached to the requests are exactly
`commandId, commandId+1, commandId+2, ...` — strictly increasing by one
per call, with no id ever assigned twice. -/
theorem send_command_ids_strictly_increase
    (st : BoxState) (calls : List (String × Option Params × List RecvEvent)) :
    runIds st calls = (List.range calls.length).map (fun i : Nat => st.commandId + (i : Int))
    ∧ (runIds st calls).Nodup := by
  have key : ∀ (cs : List (String × Option Params × List RecvEvent)) (s : BoxState),
      runIds s cs = (List.range cs.length).map (fun i : Nat => s.commandId + (i : Int)) := by
    intro cs
    induction cs with
    | nil => intro s; simp [runIds]
    | cons c cs ih =>
      intro s
      obtain ⟨m, p, ev⟩ := c
      simp only [runIds, send_command_sent, send_command_state, List.map_cons,
        List.map_nil, List.length_cons]
      rw [ih]
      rw [List.range_succ_eq_map]
      simp only [List.map_cons, List.map_map, List.singleton_append]
      congr 1
      · simp [mkRequest]
      · apply List.map_congr_left
        intro a _
        simp [Function.comp]
        ring
  refine ⟨key calls st, ?_⟩
  rw [key calls st]
  refine List.Nodup.map ?_ (List.nodup_range _)
  intro a b hab
  have hab2 : st.commandId + (a : Int) = st.commandId + (b : Int) := hab
  have h2 : (a : Int) = (b : Int) := by omega
  exact_mod_cast h2

section InitLemmas

/-- The box state with the three Hello flags assigned, as
`init_connection` lines 125-127 leave it. -/
def stWithFlags (st : BoxState) (v1 v2 v3 : JVal) : BoxState :=
  { st with initialSetupRequired := truthy v1
            authenticationRequired := truthy v2
            pushButtonAuthAvailable := truthy v3 }

theorem init_connection_plain_eq (st : BoxState) (env : NetEnv) (r : Option Frame)
    (hconn : env.plainConnect = .ok ())
    (hhello : (send_command st "JSONRPC.Hello" (some ([] : Params))
        env.plainEvents).outcome = .ok r) :
    init_connection st env =
      { outcome := (helloResult { st with commandId := st.commandId + 1 } r
          (commandOutcome st.commandId env.plainEvents).2).outcome
        state := (helloResult { st with commandId := st.commandId + 1 } r
          (commandOutcome st.commandId env.plainEvents).2).state
        plainSent := mkRequest st "JSONRPC.Hello" (some ([] : Params)) ::
          (helloResult { st with commandId := st.commandId + 1 } r
            (commandOutcome st.commandId env.plainEvents).2).sent
        tlsSent := []
        tlsConnectAttempted := false } := by
  rw [send_command_outcome] at hhello
  simp only [init_connection, hconn, send_command_outcome, send_command_state,
    send_command_sent, send_command_rest, hhello, List.singleton_append]

theorem init_connection_tls_eq (st : BoxState) (env : NetEnv) (e : Err) (r : Option Frame)
    (hconn : env.plainConnect = .ok ())
    (hfail : (send_command st "JSONRPC.Hello" (some ([] : Params))
        env.plainEvents).outcome = .error e)
    (htc : env.tlsConnect = .ok ()) (htw : env.tlsWrap = .ok ())
    (hhello2 : (send_command { st with commandId := st.commandId + 1 } "JSONRPC.Hello"
        (some ([] : Params)) env.tlsEvents).outcome = .ok r) :
    init_connection st env =
      { outcome := (helloResult { st with commandId := st.commandId + 1 + 1 } r
          (commandOutcome (st.commandId + 1) env.tlsEvents).2).outcome
        state := (helloResult { st with commandId := st.commandId + 1 + 1 } r
          (commandOutcome (st.commandId + 1) env.tlsEvents).2).state
        plainSent := [mkRequest st "JSONRPC.Hello" (some ([] : Params))]
        tlsSent := mkRequest { st with commandId := st.commandId + 1 } "JSONRPC.Hello"
            (some ([] : Params)) ::
          (helloResult { st with commandId := st.commandId + 1 + 1 } r
            (commandOutcome (st.commandId + 1) env.tlsEvents).2).sent
        tlsConnectAttempted := true } := by
  rw [send_command_outcome] at hfail
  rw [send_command_outcome] at hhello2
  simp only [send_command_state] at hhello2
  simp only [init_connection, hconn, htc, htw, send_command_outcome, send_command_state,
    send_command_sent, send_command_rest, hfail, hhello2, List.singleton_append]

theorem afterHandshake_no_auth (st : BoxState) (f : Frame) (rest : List RecvEvent)
    (hd : Params) (v1 v2 v3 : JVal)
    (hp : f.params = some hd)
    (h1 : pget hd "initialSetupRequired" = some v1)
    (h2 : pget hd "authenticationRequired" = some v2)
    (h3 : pget hd "pushButtonAuthAvailable" = some v3)
    (ht2 : truthy v2 = false) :
    afterHandshake st f rest =
      { outcome := .ok none, state := stWithFlags st v1 v2 v3, sent := [] } := by
  simp only [afterHandshake, hp, h1, h2, h3]
  simp [stWithFlags, ht2]

theorem afterHandshake_setup_required (st : BoxState) (f : Frame) (rest : List RecvEvent)
    (hd : Params) (v1 v2 v3 : JVal)
    (hp : f.params = some hd)
    (h1 : pget hd "initialSetupRequired" = some v1) (ht1 : truthy v1 = true)
    (h2 : pget hd "authenticationRequired" = some v2) (ht2 : truthy v2 = true)
    (h3 : pget hd "pushButtonAuthAvailable" = some v3) :
    afterHandshake st f rest =
      { outcome := .error (.notImplementedError
          "An uninitialized maveo box is currently not supported")
        state := stWithFlags st v1 v2 v3, sent := [] } := by
  simp only [afterHandshake, hp, h1, h2, h3]
  simp [stWithFlags, ht1, ht2]

theorem runRequests_token_none :
    ∀ (calls : List (String × Option Params × List RecvEvent)) (st : BoxState),
    st.authenticationRequired = false →
    ∀ req ∈ runRequests st calls, req.token = none := by
  intro calls
  induction calls with
  | nil => intro st hA req hr; simp [runRequests] at hr
  | cons c calls ih =>
    intro st hA req hr
    obtain ⟨m, p, ev⟩ := c
    simp only [runRequests, send_command_sent, send_command_state,
      List.singleton_append, List.mem_cons] at hr
    rcases hr with hr | hr
    · subst hr; simp [mkRequest, hA]
    · exact ih { st with commandId := st.commandId + 1 } hA req hr

end InitLemmas

/-- C3 (amended): for every Hello response whose flags include
`initialSetupRequired` truthy AND `authenticationRequired` truthy,
`init_connection` raises `NotImplementedError` ("an uninitialized maveo
box is currently not supported" — the code-level realization of the
spec's `UnsupportedConfigurationError`) without sending any frame beyond
the Hello handshake itself; this holds on both the plain path and the TLS
fallback path.  (The unamended claim fails when `authenticationRequired`
is false, because that check returns first.) -/
theorem init_connection_setup_required_raises
    (st : BoxState) (env : NetEnv) (f : Frame) (hd : Params) (v1 v2 v3 : JVal)
    (hp : f.params = some hd)
    (h1 : pget hd "initialSetupRequired" = some v1) (ht1 : truthy v1 = true)
    (h2 : pget hd "authenticationRequired" = some v2) (ht2 : truthy v2 = true)
    (h3 : pget hd "pushButtonAuthAvailable" = some v3) :
    (env.plainConnect = .ok () →
      (send_command st "JSONRPC.Hello" (some ([] : Params)) env.plainEvents).outcome
        = .ok (some f) →
      (init_connection st env).outcome = .error (.notImplementedError
          "An uninitialized maveo box is currently not supported")
      ∧ (init_connection st env).plainSent
          = [mkRequest st "JSONRPC.Hello" (some ([] : Params))]
      ∧ (init_connection st env).tlsSent = [])
    ∧ (∀ e, env.plainConnect = .ok () →
        (send_command st "JSONRPC.Hello" (some ([] : Params)) env.plainEvents).outcome
          = .error e →
        env.tlsConnect = .ok () → env.tlsWrap = .ok () →
        (send_command { st with commandId := st.commandId + 1 } "JSONRPC.Hello"
            (some ([] : Params)) env.tlsEvents).outcome = .ok (some f) →
        (init_connection st env).outcome = .error (.notImplementedError
            "An uninitialized maveo box is currently not supported")
        ∧ (init_connection st env).plainSent
            = [mkRequest st "JSONRPC.Hello" (some ([] : Params))]
        ∧ (init_connection st env).tlsSent
            = [mkRequest { st with commandId := st.commandId + 1 } "JSONRPC.Hello"
                (some ([] : Params))]) := by
  constructor
  · intro hconn hh
    rw [init_connection_plain_eq st env (some f) hconn hh]
    simp only [helloResult]
    rw [afterHandshake_setup_required _ _ _ hd v1 v2 v3 hp h1 ht1 h2 ht2 h3]
    simp
  · intro e hconn hfail htc htw hh2
    rw [init_connection_tls_eq st env e (some f) hconn hfail htc htw hh2]
    simp only [helloResult]
    rw [afterHandshake_setup_required _ _ _ hd v1 v2 v3 hp h1 ht1 h2 ht2 h3]
    simp

/-- Hello response: initial setup required but authentication NOT
required.  The claim says `init_connection` must fail; the code returns
`None` successfully, because the `authenticationRequired` check returns
first (lines 130-134 precede the `initialSetupRequired` check). -/
def helloNoAuthSetupFrame : Frame :=
  { id := some 0, status := some "success"
    params := some [("initialSetupRequired", .bool true),
                    ("authenticationRequired", .bool false),
                    ("pushButtonAuthAvailable", .bool false)] }

/-- Environment delivering `helloNoAuthSetupFrame` on the plain socket. -/
def envNoAuthSetup : NetEnv :=
  { plainConnect := .ok (), plainEvents := [.frame helloNoAuthSetupFrame]
    tlsConnect := .ok (), tlsWrap := .ok (), tlsEvents := [] }

/-- Counterexample to C3 as stated: a Hello response with
`initialSetupRequired = true` (but `authenticationRequired = false`) does
NOT make `init_connection` fail — it returns `None` successfully and no
`NotImplementedError` (the spec's `UnsupportedConfigurationError`) is
raised. -/
theorem init_connection_setup_required_counterexample :
    (init_connection {} envNoAuthSetup).outcome = .ok none
    ∧ raisedNotImplemented (init_connection {} envNoAuthSetup).outcome = false :=
  ⟨rfl, rfl⟩

/-- Hello response requiring both authentication and initial setup. -/
def helloSetupFrame : Frame :=
  { id := some 0, status := some "success"
    params := some [("initialSetupRequired", .bool true),
                    ("authenticationRequired", .bool true),
                    ("pushButtonAuthAvailable", .bool true)] }

/-- Environment delivering `helloSetupFrame` on the plain socket. -/
def envSetupRequired : NetEnv :=
  { plainConnect := .ok (), plainEvents := [.frame helloSetupFrame]
    tlsConnect := .ok (), tlsWrap := .ok (), tlsEvents := [] }

/-- Witness for the amended C3 at a concrete environment. -/
theorem init_connection_setup_required_raises_witness :
    (init_connection {} envSetupRequired).outcome = .error (.notImplementedError
        "An uninitialized maveo box is currently not supported")
    ∧ (init_connection {} envSetupRequired).plainSent
        = [mkRequest {} "JSONRPC.Hello" (some ([] : Params))]
    ∧ (init_connection {} envSetupRequired).tlsSent = [] :=
  (init_connection_setup_required_raises {} envSetupRequired helloSetupFrame
      [("initialSetupRequired", JVal.bool true), ("authenticationRequired", JVal.bool true),
       ("pushButtonAuthAvailable", JVal.bool true)]
      (.bool true) (.bool true) (.bool true)
      rfl rfl rfl rfl rfl rfl).1 rfl rfl

/-- C4: for every Hello response whose `authenticationRequired` flag is
falsy, `init_connection` returns `None` (no token), the box state keeps
`authenticationRequired = false`, and no request sent by any subsequent
sequence of `send_command` calls on that state carries a `token` field;
this holds on both the plain path and the TLS fallback path. -/
theorem init_connection_no_auth_no_token
    (st : BoxState) (env : NetEnv) (f : Frame) (hd : Params) (v1 v2 v3 : JVal)
    (hp : f.params = some hd)
    (h1 : pget hd "initialSetupRequired" = some v1)
    (h2 : pget hd "authenticationRequired" = some v2) (ht2 : truthy v2 = false)
    (h3 : pget hd "pushButtonAuthAvailable" = some v3) :
    (env.plainConnect = .ok () →
      (send_command st "JSONRPC.Hello" (some ([] : Params)) env.plainEvents).outcome
        = .ok (some f) →
      (init_connection st env).outcome = .ok none
      ∧ (init_connection st env).state.authenticationRequired = false
      ∧ ∀ calls req, req ∈ runRequests (init_connection st env).state calls →
          req.token = none)
    ∧ (∀ e, env.plainConnect = .ok () →
        (send_command st "JSONRPC.Hello" (some ([] : Params)) env.plainEvents).outcome
          = .error e →
        env.tlsConnect = .ok () → env.tlsWrap = .ok () →
        (send_command { st with commandId := st.commandId + 1 } "JSONRPC.Hello"
            (some ([] : Params)) env.tlsEvents).outcome = .ok (some f) →
        (init_connection st env).outcome = .ok none
        ∧ (init_connection st env).state.authenticationRequired = false
        ∧ ∀ calls req, req ∈ runRequests (init_connection st env).state calls →
            req.token = none) := by
  constructor
  · intro hconn hh
    rw [init_connection_plain_eq st env (some f) hconn hh]
    simp only [helloResult]
    rw [afterHandshake_no_auth _ _ _ hd v1 v2 v3 hp h1 h2 h3 ht2]
    refine ⟨rfl, by simp [stWithFlags, ht2], ?_⟩
    intro calls req hr
    exact runRequests_token_none calls _ (by simp [stWithFlags, ht2]) req hr
  · intro e hconn hfail htc htw hh2
    rw [init_connection_tls_eq st env e (some f) hconn hfail htc htw hh2]
    simp only [helloResult]
    rw [afterHandshake_no_auth _ _ _ hd v1 v2 v3 hp h1 h2 h3 ht2]
    refine ⟨rfl, by simp [stWithFlags, ht2], ?_⟩
    intro calls req hr
    exact runRequests_token_none calls _ (by simp [stWithFlags, ht2]) req hr

/-- Witness for C4: after a no-auth Hello, a subsequent
`Integrations.GetThings` request carries no token field. -/
theorem init_connection_no_auth_no_token_witness :
    (init_connection {} envNoAuthSetup).outcome = .ok none
    ∧ (init_connection {} envNoAuthSetup).state.authenticationRequired = false
    ∧ Request.token { id := 1, method := "Integrations.GetThings", token := none
                      params := none } = none := by
  have h := (init_connection_no_auth_no_token {} envNoAuthSetup helloNoAuthSetupFrame
      [("initialSetupRequired", JVal.bool true), ("authenticationRequired", JVal.bool false),
       ("pushButtonAuthAvailable", JVal.bool false)]
      (.bool true) (.bool false) (.bool false)
      rfl rfl rfl rfl rfl).1 rfl rfl
  refine ⟨h.1, h.2.1, ?_⟩
  exact h.2.2 [("Integrations.GetThings", none,
      [RecvEvent.frame { id := some 1, status := some "success" }])]
    { id := 1, method := "Integrations.GetThings", token := none, params := none }
    (by decide)

section PushButtonLemmas

theorem waitPushButton_skip (e : RecvEvent) (rest : List RecvEvent)
    (hs : nonFinishEvent e = true) :
    waitPushButton (e :: rest) = waitPushButton rest := by
  cases e with
  | closed => simp [nonFinishEvent] at hs
  | frame g =>
    by_cases hn : g.notification = some "JSONRPC.PushButtonAuthFinished"
    · rcases hgp : g.params with _ | p
      · simp [nonFinishEvent, hn, hgp] at hs
      · rcases hsv : pget p "success" with _ | v
        · simp [nonFinishEvent, hn, hgp, hsv] at hs
        · have hv : ¬ v = JVal.bool true := by
            simp only [nonFinishEvent, hn, if_true, hgp, hsv] at hs
            intro hveq
            rw [hveq] at hs
            simp at hs
          simp [waitPushButton, hn, hgp, hsv, hv]
    · simp [waitPushButton, hn]

theorem waitPushButton_append (pre tail : List RecvEvent) (h : okToSkip pre = true) :
    waitPushButton (pre ++ tail) = waitPushButton tail := by
  induction pre with
  | nil => rfl
  | cons e pre ih =>
    simp only [okToSkip, List.all_cons, Bool.and_eq_true] at h
    rw [List.cons_append, waitPushButton_skip e _ h.1]
    exact ih h.2

end PushButtonLemmas

/-- C5: in the push-button wait loop, (1) a `PushButtonAuthFinished`
notification with `params.success = true` terminates the loop and yields
`params.token` (after any number of skippable frames, including
`success = false` notifications); (2) a `PushButtonAuthFinished`
notification with `params.success = false` does not terminate the wait —
the loop on it equals the loop on the remaining stream; (3) the token the
wait loop yields is exactly what `_pushbuttonAuthentication` (and hence
`connect()`/`init_connection`, which returns `self._token` after
assigning it) returns. -/
theorem push_button_success_returns_token
    (pre rest rest2 ev rest1 : List RecvEvent) (f g : Frame) (p q : Params)
    (t : JVal) (st : BoxState) :
    (okToSkip pre = true →
      f.notification = some "JSONRPC.PushButtonAuthFinished" →
      f.params = some p →
      pget p "success" = some (.bool true) →
      pget p "token" = some t →
      waitPushButton (pre ++ .frame f :: rest) = .ok (t, rest))
    ∧ (g.notification = some "JSONRPC.PushButtonAuthFinished" →
        g.params = some q →
        pget q "success" = some (.bool false) →
        waitPushButton (.frame g :: rest) = waitPushButton rest)
    ∧ (st.token = none →
        ackLoop st.commandId ev = .ok rest1 →
        waitPushButton rest1 = .ok (t, rest2) →
        (pushbuttonAuthentication st ev).outcome = .ok t) := by
  refine ⟨?_, ?_, ?_⟩
  · intro hpre hn hp hs ht
    rw [waitPushButton_append _ _ hpre]
    simp [waitPushButton, hn, hp, hs, ht]
  · intro hn hq hs
    apply waitPushButton_skip
    simp [nonFinishEvent, hn, hq, hs]
  · intro hT hAck hWait
    simp [pushbuttonAuthentication, hT, hAck, hWait]

/-- The response acknowledging `RequestPushButtonAuth` (id 0). -/
def pbAckFrame : Frame := { id := some 0, status := some "success" }

/-- A `PushButtonAuthFinished` notification with `success = false`. -/
def pbFalseFrame : Frame :=
  { notification := some "JSONRPC.PushButtonAuthFinished"
    params := some [("success", .bool false)] }

/-- A `PushButtonAuthFinished` notification with `success = true` and
token `"abc"`. -/
def pbTrueFrame : Frame :=
  { notification := some "JSONRPC.PushButtonAuthFinished"
    params := some [("success", .bool true), ("token", .str "abc")] }

/-- Witness for C5: one `success=false` notification precedes the
`success=true` notification carrying token `"abc"`; the wait returns
`"abc"` and `_pushbuttonAuthentication` surfaces it. -/
theorem push_button_success_returns_token_witness :
    waitPushButton [RecvEvent.frame pbFalseFrame, RecvEvent.frame pbTrueFrame]
      = .ok (JVal.str "abc", [])
    ∧ (pushbuttonAuthentication {}
        [RecvEvent.frame pbAckFrame, RecvEvent.frame pbFalseFrame,
         RecvEvent.frame pbTrueFrame]).outcome = .ok (JVal.str "abc") := by
  constructor
  · have h := (push_button_success_returns_token
      [RecvEvent.frame pbFalseFrame] [] [] [] [] pbTrueFrame {}
      [("success", JVal.bool true), ("token", JVal.str "abc")] []
      (JVal.str "abc") {}).1 (by decide) rfl rfl rfl rfl
    simpa using h
  · exact (push_button_success_returns_token [] [] []
      [RecvEvent.frame pbAckFrame, RecvEvent.frame pbFalseFrame, RecvEvent.frame pbTrueFrame]
      [RecvEvent.frame pbFalseFrame, RecvEvent.frame pbTrueFrame]
      {} {} [] [] (JVal.str "abc") {}).2.2 rfl rfl rfl

/-- A response frame with a non-success status and an error string. -/
def errorStatusFrame : Frame :=
  { id := some 0, status := some "error", error := some (.str "boom") }

/-- Counterexample to C6 as stated: on a correlated response with
`status = "error"` and `error = "boom"`, `send_command` does NOT surface
a `CommandError` carrying the error field — it returns `None` (the
Python `return None` at line 262), so the outcome is a successful return
of nothing and the error string is dropped. -/
theorem send_command_non_success_counterexample :
    (send_command {} "Integrations.GetThings" none [RecvEvent.frame errorStatusFrame]).outcome
      = .ok none
    ∧ (send_command {} "Integrations.GetThings" none
        [RecvEvent.frame errorStatusFrame]).sent.length = 1 :=
  ⟨rfl, rfl⟩

/-- C6 (amended): for every `send_command` whose correlated response has
a status different from `"success"`, the call logs the response's
`error` field, raises nothing, and returns `None` to the caller (the
error string is not carried to the caller); exactly one request is
written, so the command is not retried. -/
theorem send_command_non_success_returns_none
    (st : BoxState) (m : String) (p : Option Params)
    (pre post : List RecvEvent) (f : Frame) (s : String)
    (hpre : notifOnly pre = true) (hn : f.notification = none)
    (hid : f.id = some st.commandId) (hst : f.status = some s)
    (hs : s ≠ "success") :
    (send_command st m p (pre ++ .frame f :: post)).outcome = .ok none
    ∧ (send_command st m p (pre ++ .frame f :: post)).sent = [mkRequest st m p] := by
  refine ⟨?_, send_command_sent st m p _⟩
  rw [send_command_outcome]
  unfold commandOutcome
  rw [readLoop_append _ _ _ hpre, readLoop_match _ _ _ hn hid]
  simp [hst, hs]

/-- Witness for C6 at a concrete response with status `"error"`. -/
theorem send_command_non_success_returns_none_witness :
    (send_command {} "Integrations.GetThings" none [RecvEvent.frame errorStatusFrame]).outcome
      = .ok none
    ∧ (send_command {} "Integrations.GetThings" none
        [RecvEvent.frame errorStatusFrame]).sent
      = [mkRequest {} "Integrations.GetThings" none] := by
  have h := send_command_non_success_returns_none {} "Integrations.GetThings" none
      [] [] errorStatusFrame "error" (by decide) rfl rfl rfl (by decide)
  simpa using h

/-- Counterexample to C7 as stated: the zero-length read raises
`RuntimeError("socket connection broken")`, whose message is not the
claimed `"connection broken"`. -/
theorem zero_length_read_message_counterexample :
    (send_command {} "Integrations.GetThings" none [RecvEvent.closed]).outcome
      = .error (.runtimeError "socket connection broken")
    ∧ "socket connection broken" ≠ "connection broken" := by
  refine ⟨rfl, by decide⟩

/-- C7 (amended): a zero-length chunk from `recv` raises
`RuntimeError("socket connection broken")` — in the chunk-accumulation
loop itself, in `send_command`'s read loop, and in the push-button wait
loop; the error propagates (no local retry). -/
theorem zero_length_read_raises
    (st : BoxState) (m : String) (p : Option Params)
    (rest : List RecvEvent) (chunks : List String) (data : String) :
    ((send_command st m p (RecvEvent.closed :: rest)).outcome
      = .error (.runtimeError "socket connection broken"))
    ∧ (waitPushButton (RecvEvent.closed :: rest)
        = .error (.runtimeError "socket connection broken"))
    ∧ (hasDelim data = false →
        recvLoop ("" :: chunks) data
          = .error (.runtimeError "socket connection broken")) := by
  refine ⟨rfl, rfl, ?_⟩
  intro h
  rw [recvLoop]
  simp [h]

/-- Witness for C7: the empty buffer has no delimiter yet, so a
zero-length first chunk raises at once. -/
theorem zero_length_read_raises_witness :
    recvLoop [""] "" = .error (.runtimeError "socket connection broken") :=
  (zero_length_read_raises {} "Integrations.GetThings" none [] [] "").2.2 (by decide)

section HelloCountLemmas

theorem helloCount_nil : helloCount [] = 0 := rfl

theorem helloCount_pushbutton (st : BoxState) (ev : List RecvEvent) :
    helloCount (pushbuttonAuthentication st ev).sent = 0 := by
  unfold pushbuttonAuthentication
  cases hT : st.token with
  | some t => simp [helloCount]
  | none =>
    cases hAck : ackLoop st.commandId ev with
    | error e => simp [hAck, helloCount, isHello, List.countP_cons]
    | ok rest1 =>
      cases hW : waitPushButton rest1 <;>
        simp [hAck, hW, helloCount, isHello, List.countP_cons]

theorem helloCount_afterHandshake (st : BoxState) (f : Frame) (rest : List RecvEvent) :
    helloCount (afterHandshake st f rest).sent = 0 := by
  rcases hp : f.params with _ | hd
  · simp [afterHandshake, hp, helloCount]
  · rcases h1 : pget hd "initialSetupRequired" with _ | v1
    · simp [afterHandshake, hp, h1, helloCount]
    · rcases h2 : pget hd "authenticationRequired" with _ | v2
      · simp [afterHandshake, hp, h1, h2, helloCount]
      · rcases h3 : pget hd "pushButtonAuthAvailable" with _ | v3
        · simp [afterHandshake, hp, h1, h2, h3, helloCount]
        · simp only [afterHandshake, hp, h1, h2, h3]
          by_cases hA : truthy v2 = false
          · simp [hA, helloCount]
          · rw [if_neg hA]
            by_cases hS : truthy v1 = true
            · rw [if_pos hS]
              simp [helloCount]
            · rw [if_neg hS]
              by_cases hP : truthy v3 = false
              · rw [if_pos hP]
                simp [helloCount]
              · rw [if_neg hP]
                by_cases hAT : truthy v2 = true ∧ st.token = none
                · rw [if_pos hAT]
                  rcases ho : (pushbuttonAuthentication
                      { st with initialSetupRequired := truthy v1
                                authenticationRequired := truthy v2
                                pushButtonAuthAvailable := truthy v3 } rest).outcome
                    with e | t
                  · simp only [ho]
                    exact helloCount_pushbutton _ _
                  · simp only [ho]
                    exact helloCount_pushbutton _ _
                · rw [if_neg hAT]
                  simp [helloCount]

theorem helloCount_helloResult (st : BoxState) (r : Option Frame) (rest : List RecvEvent) :
    helloCount (helloResult st r rest).sent = 0 := by
  cases r with
  | none => simp [helloResult, helloCount]
  | some f => simpa [helloResult] using helloCount_afterHandshake st f rest

theorem helloCount_single_hello (st : BoxState) (p : Option Params) :
    helloCount [mkRequest st "JSONRPC.Hello" p] = 1 := by
  simp [helloCount, isHello, mkRequest, List.countP_cons]

end HelloCountLemmas

/-- Environment in which the plain TCP connect itself fails. -/
def envPlainConnectFails : NetEnv :=
  { plainConnect := .error (.osError "connection refused"), plainEvents := []
    tlsConnect := .ok (), tlsWrap := .ok (), tlsEvents := [] }

/-- Environment in which the plain Hello and the TLS-retry Hello both hit
a zero-length read. -/
def envBothHellosBreak : NetEnv :=
  { plainConnect := .ok (), plainEvents := [.closed]
    tlsConnect := .ok (), tlsWrap := .ok (), tlsEvents := [.closed] }

/-- Counterexample to C8 as stated, in two parts.  First, not every
failure triggers the TLS retry: the plain TCP connect (line 101) is
outside the `try`, so its failure propagates with no TLS attempt.
Second, a failure of the TLS retry propagates as whatever exception
occurred — here `RuntimeError("socket connection broken")` — and not as
a `ConnectionError`. -/
theorem init_connection_tls_fallback_counterexample :
    ((init_connection {} envPlainConnectFails).outcome
        = .error (.osError "connection refused")
      ∧ (init_connection {} envPlainConnectFails).tlsConnectAttempted = false)
    ∧ ((init_connection {} envBothHellosBreak).outcome
        = .error (.runtimeError "socket connection broken")
      ∧ raisedConnectionError (init_connection {} envBothHellosBreak).outcome = false) :=
  ⟨⟨rfl, rfl⟩, ⟨rfl, rfl⟩⟩

/-- C8 (amended): `init_connection` connects over plain TCP (a failure of
the TCP connect itself propagates with no TLS attempt) and sends the
Hello handshake; on any failure of that plain Hello it retries exactly
once over TLS with an unverified context (`check_hostname = False`,
`verify_mode = CERT_NONE`): at most one Hello is ever sent on each
socket, and a failure of the TLS retry propagates to the caller as the
underlying exception (not coerced to `ConnectionError`). -/
theorem init_connection_tls_fallback (st : BoxState) (env : NetEnv) (e : Err) :
    (env.plainConnect = .error e →
      (init_connection st env).outcome = .error e
      ∧ (init_connection st env).tlsConnectAttempted = false
      ∧ (init_connection st env).plainSent = []
      ∧ (init_connection st env).tlsSent = [])
    ∧ (env.plainConnect = .ok () →
      (send_command st "JSONRPC.Hello" (some ([] : Params)) env.plainEvents).outcome
        = .error e →
      (init_connection st env).tlsConnectAttempted = true
      ∧ helloCount (init_connection st env).plainSent = 1
      ∧ helloCount (init_connection st env).tlsSent ≤ 1
      ∧ (∀ e2, env.tlsConnect = .ok () → env.tlsWrap = .ok () →
          (send_command { st with commandId := st.commandId + 1 } "JSONRPC.Hello"
              (some ([] : Params)) env.tlsEvents).outcome = .error e2 →
          (init_connection st env).outcome = .error e2))
    ∧ create_ssl_context.checkHostname = false
    ∧ create_ssl_context.verifyMode = .certNone := by
  refine ⟨?_, ?_, rfl, rfl⟩
  · intro hc
    simp [init_connection, hc]
  · intro hconn hfail
    rw [send_command_outcome] at hfail
    rcases htc2 : env.tlsConnect with e3 | u
    · have heq : init_connection st env =
          { outcome := .error e3, state := { st with commandId := st.commandId + 1 }
            plainSent := [mkRequest st "JSONRPC.Hello" (some ([] : Params))]
            tlsSent := [], tlsConnectAttempted := true } := by
        simp only [init_connection, hconn, send_command_outcome, send_command_state,
          send_command_sent, send_command_rest, hfail, htc2]
      rw [heq]
      refine ⟨rfl, helloCount_single_hello st _, by simp [helloCount], ?_⟩
      intro e2 htc htw hfail2
      simp at htc
    · cases u
      rcases htw2 : env.tlsWrap with e3 | u
      · have heq : init_connection st env =
            { outcome := .error e3, state := { st with commandId := st.commandId + 1 }
              plainSent := [mkRequest st "JSONRPC.Hello" (some ([] : Params))]
              tlsSent := [], tlsConnectAttempted := true } := by
          simp only [init_connection, hconn, send_command_outcome, send_command_state,
            send_command_sent, send_command_rest, hfail, htc2, htw2]
        rw [heq]
        refine ⟨rfl, helloCount_single_hello st _, by simp [helloCount], ?_⟩
        intro e2 htc htw hfail2
        simp at htw
      · cases u
        rcases ho : (commandOutcome (st.commandId + 1) env.tlsEvents).1 with e4 | r
        · have heq : init_connection st env =
              { outcome := .error e4
                state := { st with commandId := st.commandId + 1 + 1 }
                plainSent := [mkRequest st "JSONRPC.Hello" (some ([] : Params))]
                tlsSent := [mkRequest { st with commandId := st.commandId + 1 }
                    "JSONRPC.Hello" (some ([] : Params))]
                tlsConnectAttempted := true } := by
            simp only [init_connection, hconn, send_command_outcome, send_command_state,
              send_command_sent, send_command_rest, hfail, htc2, htw2, ho]
          rw [heq]
          refine ⟨rfl, helloCount_single_hello st _, ?_, ?_⟩
          · exact le_of_eq (helloCount_single_hello _ _)
          · intro e2 htc htw hfail2
            have hfail2b : (commandOutcome (st.commandId + 1) env.tlsEvents).1
                = .error e2 := hfail2
            rw [ho] at hfail2b
            injection hfail2b with h4
            rw [h4]
        · have heq : init_connection st env =
              { outcome := (helloResult { st with commandId := st.commandId + 1 + 1 } r
                  (commandOutcome (st.commandId + 1) env.tlsEvents).2).outcome
                state := (helloResult { st with commandId := st.commandId + 1 + 1 } r
                  (commandOutcome (st.commandId + 1) env.tlsEvents).2).state
                plainSent := [mkRequest st "JSONRPC.Hello" (some ([] : Params))]
                tlsSent := mkRequest { st with commandId := st.commandId + 1 }
                    "JSONRPC.Hello" (some ([] : Params)) ::
                  (helloResult { st with commandId := st.commandId + 1 + 1 } r
                    (commandOutcome (st.commandId + 1) env.tlsEvents).2).sent
                tlsConnectAttempted := true } := by
            simp only [init_connection, hconn, send_command_outcome, send_command_state,
              send_command_sent, send_command_rest, hfail, htc2, htw2, ho,
              List.singleton_append]
          rw [heq]
          refine ⟨rfl, helloCount_single_hello st _, ?_, ?_⟩
          · show helloCount (mkRequest _ "JSONRPC.Hello" _ ::
              (helloResult _ r _).sent) ≤ 1
            have h0 := helloCount_helloResult { st with commandId := st.commandId + 1 + 1 } r
              (commandOutcome (st.commandId + 1) env.tlsEvents).2
            simp only [helloCount] at h0 ⊢
            rw [List.countP_cons]
            simp [isHello, mkRequest, h0]
          · intro e2 htc htw hfail2
            have hfail2b : (commandOutcome (st.commandId + 1) env.tlsEvents).1
                = .error e2 := hfail2
            rw [ho] at hfail2b
            simp at hfail2b

/-- Witness for C8: the plain-connect-failure environment and the
both-hellos-break environment, with all hypotheses discharged. -/
theorem init_connection_tls_fallback_witness :
    (init_connection {} envPlainConnectFails).outcome = .error (.osError "connection refused")
    ∧ (init_connection {} envBothHellosBreak).tlsConnectAttempted = true
    ∧ (init_connection {} envBothHellosBreak).outcome
        = .error (.runtimeError "socket connection broken") := by
  refine ⟨((init_connection_tls_fallback {} envPlainConnectFails
      (.osError "connection refused")).1 rfl).1, ?_, ?_⟩
  · exact ((init_connection_tls_fallback {} envBothHellosBreak
      (.runtimeError "socket connection broken")).2.1 rfl rfl).1
  · exact ((init_connection_tls_fallback {} envBothHellosBreak
      (.runtimeError "socket connection broken")).2.1 rfl rfl).2.2.2
      (.runtimeError "socket connection broken") rfl rfl rfl

section RegistryLemmas

theorem regLookup_regSet_self (reg : Registry) (name : String) (hs : List Handler) :
    regLookup (regSet reg name hs) name = some hs := by
  induction reg with
  | nil => simp [regSet, regLookup]
  | cons kv reg ih =>
    obtain ⟨k, old⟩ := kv
    by_cases hk : k = name
    · simp [regSet, regLookup, hk]
    · simp [regSet, regLookup, hk, ih]

theorem regLookup_register (reg : Registry) (name : String) (h : Handler) :
    regLookup (register_notification_handler reg name h) name
      = some ((regLookup reg name).getD [] ++ [h]) := by
  unfold register_notification_handler
  rcases hL : regLookup reg name with _ | l
  · simp [hL, regLookup_regSet_self]
  · simp [hL, regLookup_regSet_self]

end RegistryLemmas

/-- C9: registering a handler appends it to the list kept under its
notification name, and for every inbound notification the dispatch loop
invokes each handler registered under that name exactly once (in
registration order) with the notification's params; the result of each
scheduling attempt is independent of the others — a raised exception is
caught per-handler, so it neither prevents the remaining handlers from
being invoked nor stops the processing of subsequent messages (the loop
continues with `rest`). -/
theorem notification_dispatch_invokes_all_handlers
    (reg : Registry) (sched : Handler → Params → SchedOutcome) (name : String)
    (hs : List Handler) (m : Frame) (rest : List Frame) (h : Handler) :
    (regLookup (register_notification_handler reg name h) name
      = some ((regLookup reg name).getD [] ++ [h]))
    ∧ (m.notification = some name → regLookup reg name = some hs →
        wsProcessMessages reg sched (m :: rest)
          = hs.map (fun hh => { handler := hh, params := m.params.getD []
                                result := sched hh (m.params.getD []) })
            ++ wsProcessMessages reg sched rest) := by
  refine ⟨regLookup_register reg name h, ?_⟩
  intro hm hreg
  simp [wsProcessMessages, dispatchMessage, hm, hreg]

/-- Scheduling double for the C9 witness: handler 1 raises, handler 2
succeeds. -/
def schedW : Handler → Params → SchedOutcome :=
  fun h _ => if h = 1 then .raised "boom" else .ok

/-- Registry with two handlers under `Integrations.StateChanged`. -/
def regW : Registry := [("Integrations.StateChanged", [1, 2])]

/-- One `Integrations.StateChanged` notification. -/
def msgW : Frame :=
  { notification := some "Integrations.StateChanged"
    params := some [("thingId", .str "t1")] }

/-- Witness for C9: handler 1 raises, but handler 2 is still invoked,
both exactly once with the same params. -/
theorem notification_dispatch_invokes_all_handlers_witness :
    wsProcessMessages regW schedW [msgW]
      = [{ handler := 1, params := [("thingId", JVal.str "t1")], result := .raised "boom" },
         { handler := 2, params := [("thingId", JVal.str "t1")], result := .ok }] := by
  have h2 := (notification_dispatch_invokes_all_handlers regW schedW
      "Integrations.StateChanged" [1, 2] msgW [] 0).2 rfl rfl
  simpa [schedW, msgW, wsProcessMessages] using h2

/-- C10: an `Integrations.StateChanged` notification whose
`params.thingId` differs from a thing's id (or is absent, or not a
string) leaves that thing's handler with no effect at all — the state
cache is unchanged and no callbacks are scheduled; conversely, any
change to the state cache can only come from a notification carrying
exactly the thing's own id. -/
theorem state_changed_other_thing_untouched (t : ThingState) (params : Params) :
    (pget params "thingId" ≠ some (JVal.str t.id) →
      handle_state_changed t params = (t, false))
    ∧ ((handle_state_changed t params).1.stateCache ≠ t.stateCache →
        pget params "thingId" = some (JVal.str t.id)) := by
  by_cases h : pget params "thingId" = some (JVal.str t.id)
  · exact ⟨fun hne => absurd h hne, fun _ => h⟩
  · refine ⟨fun _ => ?_, fun hc => ?_⟩
    · simp [handle_state_changed, h]
    · exfalso
      apply hc
      simp [handle_state_changed, h]

/-- A thing with one cached state value. -/
def thingW : ThingState := { id := "thing-a", stateCache := [(.str "s1", .int 5)] }

/-- A state-change notification for a different thing. -/
def otherParamsW : Params :=
  [("thingId", .str "thing-b"), ("stateTypeId", .str "s1"), ("value", .int 9)]

/-- Witness for C10: a notification for `thing-b` leaves `thing-a`'s
cache untouched and schedules no callbacks. -/
theorem state_changed_other_thing_untouched_witness :
    handle_state_changed thingW otherParamsW = (thingW, false) :=
  (state_changed_other_thing_untouched thingW otherParamsW).1 (by decide)

end Nymea
